import Mathlib

/-!
Shallow embedding of share/FASTQFile.py (FASTQ read/identifier handling).

Python attribute slots are modelled as Option PyVal: Option.none means the
attribute was never assigned (access raises AttributeError), some PyVal.pynone
means the attribute holds the Python None object, some (PyVal.str s) a string.
Exceptions that the source can raise out of a function are modelled with
Except; exceptions the source catches internally are folded into Option.
-/

/-- A Python value that can sit in an identifier attribute: None or a string. -/
inductive PyVal where
  | pynone : PyVal
  | str : String → PyVal
deriving DecidableEq

/-- Exception classes that int(x) on an attribute can raise in the source:
AttributeError (attribute never assigned), TypeError (int of None),
ValueError (int of a non-numeric string). -/
inductive PyErr where
  | attributeError : PyErr
  | typeError : PyErr
  | valueError : PyErr
deriving DecidableEq

/-- Whitespace characters removed by the Python str.strip method. -/
def pyIsSpace (c : Char) : Bool :=
  c = ' ' || c = '\t' || c = '\n' || c = '\r' || c = '\x0b' || c = '\x0c'

/-- str.strip on a character list: drop leading and trailing whitespace. -/
def pyStripList (l : List Char) : List Char :=
  ((l.dropWhile pyIsSpace).reverse.dropWhile pyIsSpace).reverse

/-- str.strip on a string. -/
def pyStrip (s : String) : String := ⟨pyStripList s.data⟩

/-- str.split with a one-character separator, Python semantics: the result is
always nonempty, and an empty input gives one empty piece. -/
def pySplit (sep : Char) : List Char → List (List Char)
  | [] => [[]]
  | c :: cs =>
    if c = sep then [] :: pySplit sep cs
    else
      match pySplit sep cs with
      | [] => [[c]]
      | h :: t => (c :: h) :: t

/-- Value of a nonempty all-digit character list, else none. -/
def digitsVal : List Char → Option Nat
  | [] => none
  | l =>
    if l.all Char.isDigit then
      some (l.foldl (fun acc c => 10 * acc + (c.toNat - 48)) 0)
    else none

/-- Python int(s) for a string s: surrounding whitespace allowed, optional
sign, then a nonempty run of decimal digits; anything else is a ValueError,
modelled as none. -/
def pyInt (s : String) : Option Int :=
  match pyStripList s.data with
  | '+' :: rest => (digitsVal rest).map (fun n => (n : Int))
  | '-' :: rest => (digitsVal rest).map (fun n => -(n : Int))
  | rest => (digitsVal rest).map (fun n => (n : Int))

/-- Python s.startswith(c) for a single character c. -/
def strStartsWithChar (s : String) (c : Char) : Bool :=
  match s.data with
  | [] => false
  | d :: _ => d = c

/-- State of a SequenceIdentifier object: the stripped identifier text, the
format tag, and the attribute slots.  Slot value none means never assigned. -/
structure SequenceIdentifier where
  seqid : String
  format : Option String
  instrument_name : Option PyVal
  run_id : Option PyVal
  flowcell_id : Option PyVal
  flowcell_lane : Option PyVal
  tile_no : Option PyVal
  x_coord : Option PyVal
  y_coord : Option PyVal
  multiplex_index_no : Option PyVal
  pair_id : Option PyVal
  bad_read : Option PyVal
  control_bit_flag : Option PyVal
  index_sequence : Option PyVal
deriving DecidableEq

/-- Object state right after the first two assignments of the constructor:
stripped text stored, format None, no attribute slots assigned yet. -/
def SequenceIdentifier.blank (stripped : String) : SequenceIdentifier :=
  { seqid := stripped, format := none, instrument_name := none, run_id := none,
    flowcell_id := none, flowcell_lane := none, tile_no := none, x_coord := none,
    y_coord := none, multiplex_index_no := none, pair_id := none, bad_read := none,
    control_bit_flag := none, index_sequence := none }

/-- The Illumina 1.8 dialect attempt of the constructor.  Statements run in
source order; a failing list index (IndexError in the source) aborts the
block, keeping every assignment made so far, exactly as the caught exception
does in Python. -/
def SequenceIdentifier.attempt18 (s : SequenceIdentifier) : SequenceIdentifier :=
  let fields := pySplit ':' s.seqid.data.tail
  match fields.get? 0 with
  | none => s
  | some f0 =>
    let s1 := { s with instrument_name := some (PyVal.str ⟨f0⟩) }
    match fields.get? 1 with
    | none => s1
    | some f1 =>
      let s2 := { s1 with run_id := some (PyVal.str ⟨f1⟩) }
      match fields.get? 2 with
      | none => s2
      | some f2 =>
        let s3 := { s2 with flowcell_id := some (PyVal.str ⟨f2⟩) }
        match fields.get? 3 with
        | none => s3
        | some f3 =>
          let s4 := { s3 with flowcell_lane := some (PyVal.str ⟨f3⟩) }
          match fields.get? 4 with
          | none => s4
          | some f4 =>
            let s5 := { s4 with tile_no := some (PyVal.str ⟨f4⟩) }
            match fields.get? 5 with
            | none => s5
            | some f5 =>
              let s6 := { s5 with x_coord := some (PyVal.str ⟨f5⟩) }
              match fields.get? 6 with
              | none => s6
              | some f6 =>
                match (pySplit ' ' f6).get? 0 with
                | none => s6
                | some y =>
                  let s7 := { s6 with y_coord := some (PyVal.str ⟨y⟩) }
                  let s8 := { s7 with multiplex_index_no := some PyVal.pynone }
                  match (pySplit ' ' f6).get? 1 with
                  | none => s8
                  | some p =>
                    let s9 := { s8 with pair_id := some (PyVal.str ⟨p⟩) }
                    match fields.get? 7 with
                    | none => s9
                    | some f7 =>
                      let s10 := { s9 with bad_read := some (PyVal.str ⟨f7⟩) }
                      match fields.get? 8 with
                      | none => s10
                      | some f8 =>
                        let s11 := { s10 with control_bit_flag := some (PyVal.str ⟨f8⟩) }
                        match fields.get? 9 with
                        | none => s11
                        | some f9 =>
                          let s12 := { s11 with index_sequence := some (PyVal.str ⟨f9⟩) }
                          { s12 with format := some "illumina18" }

/-- The earlier Illumina (1.3/1.5) dialect attempt, same conventions. -/
def SequenceIdentifier.attemptLegacy (s : SequenceIdentifier) : SequenceIdentifier :=
  let fields := pySplit ':' s.seqid.data.tail
  match fields.get? 0 with
  | none => s
  | some f0 =>
    let s1 := { s with instrument_name := some (PyVal.str ⟨f0⟩) }
    let s2 := { s1 with run_id := some PyVal.pynone }
    let s3 := { s2 with flowcell_id := some PyVal.pynone }
    match fields.get? 1 with
    | none => s3
    | some f1 =>
      let s4 := { s3 with flowcell_lane := some (PyVal.str ⟨f1⟩) }
      match fields.get? 2 with
      | none => s4
      | some f2 =>
        let s5 := { s4 with tile_no := some (PyVal.str ⟨f2⟩) }
        match fields.get? 3 with
        | none => s5
        | some f3 =>
          let s6 := { s5 with x_coord := some (PyVal.str ⟨f3⟩) }
          match fields.get? 4 with
          | none => s6
          | some f4 =>
            match (pySplit '#' f4).get? 0 with
            | none => s6
            | some y =>
              let s7 := { s6 with y_coord := some (PyVal.str ⟨y⟩) }
              match (pySplit '#' f4).get? 1 with
              | none => s7
              | some h1 =>
                match (pySplit '/' h1).get? 0 with
                | none => s7
                | some m =>
                  let s8 := { s7 with multiplex_index_no := some (PyVal.str ⟨m⟩) }
                  match (pySplit '/' h1).get? 1 with
                  | none => s8
                  | some p =>
                    let s9 := { s8 with pair_id := some (PyVal.str ⟨p⟩) }
                    let s10 := { s9 with bad_read := some PyVal.pynone }
                    let s11 := { s10 with control_bit_flag := some PyVal.pynone }
                    let s12 := { s11 with index_sequence := some PyVal.pynone }
                    { s12 with format := some "illumina" }

/-- The SequenceIdentifier constructor.  The marker test runs on the raw
argument, while field extraction runs on the stripped text with the first
character dropped.  The 1.8 attempt sets the format tag only as its final
statement, so a tag of illumina18 marks exactly the runs that completed and
returned early; otherwise the legacy attempt continues from the partial
state the first attempt left behind. -/
def SequenceIdentifier.parse (seqid : String) : SequenceIdentifier :=
  let s0 := SequenceIdentifier.blank (pyStrip seqid)
  if strStartsWithChar seqid '@' then
    let s18 := SequenceIdentifier.attempt18 s0
    if s18.format = some "illumina18" then s18
    else SequenceIdentifier.attemptLegacy s18
  else s0

/-- Python int(x) applied to an attribute slot. -/
def pyIntAttr : Option PyVal → Except PyErr Int
  | none => Except.error PyErr.attributeError
  | some PyVal.pynone => Except.error PyErr.typeError
  | some (PyVal.str s) =>
    match pyInt s with
    | none => Except.error PyErr.valueError
    | some i => Except.ok i

/-- One equality comparison between two attribute slots.  none records that
accessing an unassigned attribute raised (an exception the caller catches). -/
def cmpAttr : Option PyVal → Option PyVal → Option Bool
  | some v, some w => some (decide (v = w))
  | _, _ => none

/-- Conjunction of two attribute comparisons, propagating a raised access. -/
def andO : Option Bool → Option Bool → Option Bool
  | some x, some y => some (x && y)
  | _, _ => none

/-- The chained attribute equalities of is_pair_of, in source order.  A Python
conjunction stops at the first false conjunct; since the caller turns both a
false conjunct and a raised access into the result False, folding the raise
into Option keeps the returned value identical. -/
def SequenceIdentifier.attrsMatch (a b : SequenceIdentifier) : Option Bool :=
  andO (cmpAttr a.instrument_name b.instrument_name)
    (andO (cmpAttr a.run_id b.run_id)
      (andO (cmpAttr a.flowcell_id b.flowcell_id)
        (andO (cmpAttr a.flowcell_lane b.flowcell_lane)
          (andO (cmpAttr a.tile_no b.tile_no)
            (andO (cmpAttr a.x_coord b.x_coord)
              (andO (cmpAttr a.y_coord b.y_coord)
                (andO (cmpAttr a.multiplex_index_no b.multiplex_index_no)
                  (andO (cmpAttr a.bad_read b.bad_read)
                    (andO (cmpAttr a.control_bit_flag b.control_bit_flag)
                      (cmpAttr a.index_sequence b.index_sequence))))))))))

/-- is_pair_of.  The two int conversions happen before the try block, so a
failure there propagates (Except.error); the attribute comparison phase sits
inside try/except and any failure there becomes the return value False. -/
def SequenceIdentifier.is_pair_of (a b : SequenceIdentifier) : Except PyErr Bool :=
  match pyIntAttr a.pair_id with
  | Except.error e => Except.error e
  | Except.ok i1 =>
    match pyIntAttr b.pair_id with
    | Except.error e => Except.error e
    | Except.ok i2 =>
      if [min i1 i2, max i1 i2] ≠ [(1 : Int), 2] then Except.ok false
      else Except.ok ((SequenceIdentifier.attrsMatch a b).getD false)

/-- The %s rendering of an attribute value. -/
def pyFmtVal : PyVal → String
  | PyVal.pynone => "None"
  | PyVal.str s => s

/-- The repr of a SequenceIdentifier.  Attribute access is fallible on the
two recognized branches (none would mean AttributeError); the final branch
returns the stored stripped identifier text verbatim. -/
def SequenceIdentifier.repr (s : SequenceIdentifier) : Option String :=
  if s.format = some "illumina18" then
    match s.instrument_name, s.run_id, s.flowcell_id, s.flowcell_lane, s.tile_no,
        s.x_coord, s.y_coord, s.pair_id, s.bad_read, s.control_bit_flag,
        s.index_sequence with
    | some i, some r, some fc, some ln, some t, some x, some y, some p, some b,
        some c, some ix =>
      some ("@" ++ pyFmtVal i ++ ":" ++ pyFmtVal r ++ ":" ++ pyFmtVal fc ++ ":" ++
        pyFmtVal ln ++ ":" ++ pyFmtVal t ++ ":" ++ pyFmtVal x ++ ":" ++ pyFmtVal y ++
        " " ++ pyFmtVal p ++ ":" ++ pyFmtVal b ++ ":" ++ pyFmtVal c ++ ":" ++ pyFmtVal ix)
    | _, _, _, _, _, _, _, _, _, _, _ => none
  else if s.format = some "illumina" then
    match s.instrument_name, s.flowcell_lane, s.tile_no, s.x_coord, s.y_coord,
        s.multiplex_index_no, s.pair_id with
    | some i, some ln, some t, some x, some y, some m, some p =>
      some ("@" ++ pyFmtVal i ++ ":" ++ pyFmtVal ln ++ ":" ++ pyFmtVal t ++ ":" ++
        pyFmtVal x ++ ":" ++ pyFmtVal y ++ "#" ++ pyFmtVal m ++ "/" ++ pyFmtVal p)
    | _, _, _, _, _, _, _ => none
  else
    some s.seqid

/-- One FASTQ read record, as stored by the FastqRead constructor. -/
structure FastqRead where
  raw_seqid : String
  sequence : String
  optid : String
  quality : String
deriving DecidableEq

/-- The FastqRead constructor: the raw identifier line is stored as given,
the other three lines are stored stripped. -/
def FastqRead.make (seqid_line seq_line optid_line quality_line : String) : FastqRead :=
  { raw_seqid := seqid_line, sequence := pyStrip seq_line,
    optid := pyStrip optid_line, quality := pyStrip quality_line }

/-- The seqid property: the identifier parsed from the raw identifier line.
The source caches the result on first access; the record is never mutated,
so the cache is observationally the plain recomputation modelled here. -/
def FastqRead.seqid (r : FastqRead) : SequenceIdentifier :=
  SequenceIdentifier.parse r.raw_seqid

/-- The is_colorspace property: requires an unrecognized identifier format,
a sequence starting with T, and every later character in ".0123". -/
def FastqRead.is_colorspace (r : FastqRead) : Bool :=
  match r.seqid.format with
  | none =>
    if strStartsWithChar r.sequence 'T' then
      r.sequence.data.tail.all (fun c => ".0123".data.contains c)
    else false
  | some _ => false

/-- The seqlen property. -/
def FastqRead.seqlen (r : FastqRead) : Nat :=
  if r.is_colorspace then r.sequence.length - 1 else r.sequence.length

/-- State of a FastqIterator: the stored file-name argument (None when the
caller supplied an open handle), the lines the handle still has to give out,
and whether the handle has been closed. -/
structure FastqIterator where
  fastq_file : Option String
  lines : List String
  closed : Bool
deriving DecidableEq

/-- readline on a line source: the next line, or the empty string at EOF.
A real line is never the empty string, since it keeps its terminator and
only the final line of a file may lack one while being nonempty. -/
def readline : List String → String × List String
  | [] => ("", [])
  | l :: ls => (l, ls)

/-- Outcome of one next() call: a record, or StopIteration.  The source has
no other exit from next; in particular no truncation error class exists. -/
inductive NextResult where
  | read : FastqRead → NextResult
  | stopIteration : NextResult
deriving DecidableEq

/-- next(): read four lines; a nonempty fourth line yields a record, an empty
one means EOF was reached, the handle is closed when the stored file name is
None, and StopIteration is raised. -/
def FastqIterator.next (it : FastqIterator) : NextResult × FastqIterator :=
  let p1 := readline it.lines
  let p2 := readline p1.2
  let p3 := readline p2.2
  let p4 := readline p3.2
  if p4.1 ≠ "" then
    (NextResult.read (FastqRead.make p1.1 p2.1 p3.1 p4.1), { it with lines := p4.2 })
  else
    (NextResult.stopIteration,
      { it with lines := p4.2,
                closed := if it.fastq_file = none then true else it.closed })

/-- Number of newline characters in the file content.  The source counts
newline characters over fixed-size blocks and sums the counts, which equals
this whole-content count. -/
def countNewlines (content : String) : Nat := content.data.count '\n'

/-- nreads: newline count not divisible by four raises (a bare Exception with
this message, which the specification names MalformedFileError), otherwise
the count divided by four is returned. -/
def nreads (content : String) : Except String Nat :=
  if countNewlines content % 4 ≠ 0 then
    Except.error "Bad read count (not fastq file, or corrupted?)"
  else
    Except.ok (countNewlines content / 4)


/-! Helper lemmas. -/

theorem attempt18_seqid (s : SequenceIdentifier) :
    (SequenceIdentifier.attempt18 s).seqid = s.seqid := by
  unfold SequenceIdentifier.attempt18
  dsimp only
  repeat' split
  all_goals rfl

theorem attemptLegacy_seqid (s : SequenceIdentifier) :
    (SequenceIdentifier.attemptLegacy s).seqid = s.seqid := by
  unfold SequenceIdentifier.attemptLegacy
  dsimp only
  repeat' split
  all_goals rfl

theorem parse_seqid (s : String) :
    (SequenceIdentifier.parse s).seqid = pyStrip s := by
  unfold SequenceIdentifier.parse
  dsimp only
  split
  · split
    · rw [attempt18_seqid]
      rfl
    · rw [attemptLegacy_seqid, attempt18_seqid]
      rfl
  · rfl

theorem dropWhile_all_false {p : Char → Bool} {l : List Char}
    (h : ∀ c ∈ l, p c = false) : l.dropWhile p = l := by
  induction l with
  | nil => rfl
  | cons c cs ih =>
    rw [List.dropWhile_cons, h c (by simp)]
    simp [ih (fun x hx => h x (by simp [hx]))]

theorem dropWhile_all_true {p : Char → Bool} {l : List Char}
    (h : ∀ c ∈ l, p c = true) : l.dropWhile p = [] := by
  induction l with
  | nil => rfl
  | cons c cs ih =>
    rw [List.dropWhile_cons, h c (by simp)]
    simp [ih (fun x hx => h x (by simp [hx]))]

theorem dropWhile_append_all_true {p : Char → Bool} {l : List Char} (m : List Char)
    (h : ∀ c ∈ l, p c = true) : (l ++ m).dropWhile p = m.dropWhile p := by
  induction l with
  | nil => rfl
  | cons c cs ih =>
    rw [List.cons_append, List.dropWhile_cons, h c (by simp)]
    simp [ih (fun x hx => h x (by simp [hx]))]

theorem pyStripList_concat {s t : List Char}
    (hs : ∀ c ∈ s, pyIsSpace c = false) (ht : ∀ c ∈ t, pyIsSpace c = true) :
    pyStripList (s ++ t) = s := by
  unfold pyStripList
  cases s with
  | nil =>
    rw [List.nil_append, dropWhile_all_true ht]
    rfl
  | cons c cs =>
    rw [List.cons_append, List.dropWhile_cons, hs c (by simp)]
    simp only [Bool.false_eq_true, if_false]
    have hrev : ∀ x ∈ cs.reverse ++ [c], pyIsSpace x = false := by
      intro x hx
      rcases List.mem_append.mp hx with h1 | h2
      · exact hs x (by simp [List.mem_reverse.mp h1])
      · exact hs x (by simp [List.mem_singleton.mp h2])
    rw [List.reverse_cons, List.reverse_append, List.append_assoc,
      dropWhile_append_all_true _ (fun x hx => ht x (List.mem_reverse.mp hx)),
      dropWhile_all_false hrev]
    simp


/-- Spec-side wording (PairChecker policy): both slots are assigned and hold
the same value.  Kept separate from the source translation so the two can be
compared. -/
def fieldBothEq (x y : Option PyVal) : Prop := ∃ v, x = some v ∧ y = some v

/-- Spec-side wording: every comparable field other than pair_id is equal,
field for field.  The source attribute names stand for the spec names:
flowcell_lane is lane, tile_no is tile, multiplex_index_no is
multiplex_index, bad_read is filter_flag, control_bit_flag is control_flag. -/
def specComparableFieldsEqual (a b : SequenceIdentifier) : Prop :=
  fieldBothEq a.instrument_name b.instrument_name ∧
  fieldBothEq a.run_id b.run_id ∧
  fieldBothEq a.flowcell_id b.flowcell_id ∧
  fieldBothEq a.flowcell_lane b.flowcell_lane ∧
  fieldBothEq a.tile_no b.tile_no ∧
  fieldBothEq a.x_coord b.x_coord ∧
  fieldBothEq a.y_coord b.y_coord ∧
  fieldBothEq a.multiplex_index_no b.multiplex_index_no ∧
  fieldBothEq a.bad_read b.bad_read ∧
  fieldBothEq a.control_bit_flag b.control_bit_flag ∧
  fieldBothEq a.index_sequence b.index_sequence

theorem cmpAttr_eq_some_true {x y : Option PyVal} :
    cmpAttr x y = some true ↔ fieldBothEq x y := by
  cases x <;> cases y <;>
    simp [cmpAttr, fieldBothEq, decide_eq_true_iff, eq_comm]

theorem andO_eq_some_true {x y : Option Bool} :
    andO x y = some true ↔ x = some true ∧ y = some true := by
  cases x <;> cases y <;> simp [andO, Bool.and_eq_true]

theorem attrsMatch_eq_some_true (a b : SequenceIdentifier) :
    SequenceIdentifier.attrsMatch a b = some true ↔ specComparableFieldsEqual a b := by
  simp [SequenceIdentifier.attrsMatch, andO_eq_some_true, cmpAttr_eq_some_true,
    specComparableFieldsEqual]

theorem cmpAttr_symm (x y : Option PyVal) : cmpAttr x y = cmpAttr y x := by
  cases x <;> cases y <;> simp [cmpAttr, eq_comm]

theorem attrsMatch_symm (a b : SequenceIdentifier) :
    SequenceIdentifier.attrsMatch a b = SequenceIdentifier.attrsMatch b a := by
  unfold SequenceIdentifier.attrsMatch
  rw [cmpAttr_symm a.instrument_name, cmpAttr_symm a.run_id,
    cmpAttr_symm a.flowcell_id, cmpAttr_symm a.flowcell_lane,
    cmpAttr_symm a.tile_no, cmpAttr_symm a.x_coord, cmpAttr_symm a.y_coord,
    cmpAttr_symm a.multiplex_index_no, cmpAttr_symm a.bad_read,
    cmpAttr_symm a.control_bit_flag, cmpAttr_symm a.index_sequence]

theorem minmax_pair_iff (i j : Int) :
    [min i j, max i j] = [(1 : Int), 2] ↔ ((i = 1 ∧ j = 2) ∨ (i = 2 ∧ j = 1)) := by
  simp only [List.cons.injEq, and_true]
  constructor
  · rintro ⟨h1, h2⟩
    rcases le_total i j with h | h
    · rw [min_eq_left h] at h1
      rw [max_eq_right h] at h2
      exact Or.inl ⟨h1, h2⟩
    · rw [min_eq_right h] at h1
      rw [max_eq_left h] at h2
      exact Or.inr ⟨h2, h1⟩
  · rintro (⟨rfl, rfl⟩ | ⟨rfl, rfl⟩) <;> constructor <;> decide

theorem is_pair_of_err_left {a b : SequenceIdentifier} {e : PyErr}
    (h : pyIntAttr a.pair_id = Except.error e) :
    SequenceIdentifier.is_pair_of a b = Except.error e := by
  unfold SequenceIdentifier.is_pair_of
  rw [h]

theorem is_pair_of_err_right {a b : SequenceIdentifier} {i : Int} {e : PyErr}
    (h1 : pyIntAttr a.pair_id = Except.ok i)
    (h2 : pyIntAttr b.pair_id = Except.error e) :
    SequenceIdentifier.is_pair_of a b = Except.error e := by
  unfold SequenceIdentifier.is_pair_of
  rw [h1, h2]

theorem is_pair_of_ok_both {a b : SequenceIdentifier} {i j : Int}
    (h1 : pyIntAttr a.pair_id = Except.ok i)
    (h2 : pyIntAttr b.pair_id = Except.ok j) :
    SequenceIdentifier.is_pair_of a b =
      Except.ok (if [min i j, max i j] ≠ [(1 : Int), 2] then false
        else (SequenceIdentifier.attrsMatch a b).getD false) := by
  unfold SequenceIdentifier.is_pair_of
  rw [h1, h2]
  by_cases hc : [min i j, max i j] = [(1 : Int), 2]
  · simp [hc]
  · simp [hc]


theorem getD_false_eq_true {o : Option Bool} (h : o.getD false = true) :
    o = some true := by
  cases o <;> simp_all

/-! Claim theorems. -/

/-- Claim C6: the canonical 1.8 example line parses to the illumina18 format
with instrument_name EAS139, lane 2 (source attribute flowcell_lane) and
pair_id 1; the canonical legacy example line parses to the illumina format
with multiplex_index 0 (source attribute multiplex_index_no) and pair_id 1. -/
theorem claim_C6 :
    (SequenceIdentifier.parse "@EAS139:136:FC706VJ:2:2104:15343:197393 1:Y:18:ATCACG").format
        = some "illumina18" ∧
    (SequenceIdentifier.parse "@EAS139:136:FC706VJ:2:2104:15343:197393 1:Y:18:ATCACG").instrument_name
        = some (PyVal.str "EAS139") ∧
    (SequenceIdentifier.parse "@EAS139:136:FC706VJ:2:2104:15343:197393 1:Y:18:ATCACG").flowcell_lane
        = some (PyVal.str "2") ∧
    (SequenceIdentifier.parse "@EAS139:136:FC706VJ:2:2104:15343:197393 1:Y:18:ATCACG").pair_id
        = some (PyVal.str "1") ∧
    (SequenceIdentifier.parse "@HWUSI-EAS100R:6:73:941:1973#0/1").format
        = some "illumina" ∧
    (SequenceIdentifier.parse "@HWUSI-EAS100R:6:73:941:1973#0/1").multiplex_index_no
        = some (PyVal.str "0") ∧
    (SequenceIdentifier.parse "@HWUSI-EAS100R:6:73:941:1973#0/1").pair_id
        = some (PyVal.str "1") := by
  refine ⟨?_, ?_, ?_, ?_, ?_, ?_, ?_⟩ <;> rfl

/-- Claim C1 as stated is false: a missing pair_id slot (Unrecognized
identifier) makes is_pair_of raise AttributeError, and a non-numeric pair_id
makes it raise ValueError, because the int conversions sit before the
try/except of the comparison phase. -/
theorem claim_C1_counterexample :
    SequenceIdentifier.is_pair_of
        (SequenceIdentifier.parse "@EAS139:136:FC706VJ:2:2104:15343:197393 1:Y:18:ATCACG")
        (SequenceIdentifier.parse "plain text")
      = Except.error PyErr.attributeError ∧
    SequenceIdentifier.is_pair_of
        (SequenceIdentifier.parse "@HWUSI-EAS100R:6:73:941:1973#0/x")
        (SequenceIdentifier.parse "@HWUSI-EAS100R:6:73:941:1973#0/1")
      = Except.error PyErr.valueError := by
  exact ⟨rfl, rfl⟩

/-- Claim C1 amended: is_pair_of returns a boolean exactly when both pair_id
conversions succeed (slot assigned with a numeric string); otherwise the
conversion failure propagates as an exception.  Failures inside the later
field-comparison phase never propagate. -/
theorem claim_C1_amended (a b : SequenceIdentifier) :
    (∃ r : Bool, SequenceIdentifier.is_pair_of a b = Except.ok r) ↔
      ((∃ i : Int, pyIntAttr a.pair_id = Except.ok i) ∧
       (∃ j : Int, pyIntAttr b.pair_id = Except.ok j)) := by
  constructor
  · rintro ⟨r, hr⟩
    cases h1 : pyIntAttr a.pair_id with
    | error e =>
      rw [is_pair_of_err_left h1] at hr
      cases hr
    | ok i =>
      cases h2 : pyIntAttr b.pair_id with
      | error e =>
        rw [is_pair_of_err_right h1 h2] at hr
        cases hr
      | ok j => exact ⟨⟨i, rfl⟩, ⟨j, rfl⟩⟩
  · rintro ⟨⟨i, h1⟩, ⟨j, h2⟩⟩
    exact ⟨_, is_pair_of_ok_both h1 h2⟩

/-- Witness for the amended claim C1 at a concrete mate pair. -/
theorem claim_C1_witness :
    ∃ r : Bool, SequenceIdentifier.is_pair_of
      (SequenceIdentifier.parse "@HWUSI-EAS100R:6:73:941:1973#0/1")
      (SequenceIdentifier.parse "@HWUSI-EAS100R:6:73:941:1973#0/2") = Except.ok r :=
  (claim_C1_amended _ _).mpr ⟨⟨1, by rfl⟩, ⟨2, by rfl⟩⟩

/-- Claim C3: is_pair_of returns True exactly when both pair_id values
convert to integers forming the set containing 1 and 2 in either order and
every other comparable field is assigned and equal on both sides; the
predicate is symmetric on returned values; and with a valid pair_id set but
any other field differing the returned value is False. -/
theorem claim_C3 (a b : SequenceIdentifier) :
    (SequenceIdentifier.is_pair_of a b = Except.ok true ↔
      (∃ i j : Int, pyIntAttr a.pair_id = Except.ok i ∧
        pyIntAttr b.pair_id = Except.ok j ∧
        ((i = 1 ∧ j = 2) ∨ (i = 2 ∧ j = 1)) ∧ specComparableFieldsEqual a b)) ∧
    (∀ r : Bool, SequenceIdentifier.is_pair_of a b = Except.ok r ↔
      SequenceIdentifier.is_pair_of b a = Except.ok r) ∧
    (∀ i j : Int, pyIntAttr a.pair_id = Except.ok i →
      pyIntAttr b.pair_id = Except.ok j →
      ((i = 1 ∧ j = 2) ∨ (i = 2 ∧ j = 1)) → ¬ specComparableFieldsEqual a b →
      SequenceIdentifier.is_pair_of a b = Except.ok false) := by
  refine ⟨⟨?_, ?_⟩, ?_, ?_⟩
  · intro h
    cases h1 : pyIntAttr a.pair_id with
    | error e =>
      rw [is_pair_of_err_left h1] at h
      cases h
    | ok i =>
      cases h2 : pyIntAttr b.pair_id with
      | error e =>
        rw [is_pair_of_err_right h1 h2] at h
        cases h
      | ok j =>
        rw [is_pair_of_ok_both h1 h2] at h
        have h3 := Except.ok.inj h
        by_cases hc : [min i j, max i j] = [(1 : Int), 2]
        · rw [if_neg (not_not_intro hc)] at h3
          exact ⟨i, j, rfl, rfl, (minmax_pair_iff i j).mp hc,
            (attrsMatch_eq_some_true a b).mp (getD_false_eq_true h3)⟩
        · rw [if_pos hc] at h3
          cases h3
  · rintro ⟨i, j, h1, h2, hset, hfields⟩
    rw [is_pair_of_ok_both h1 h2,
      if_neg (not_not_intro ((minmax_pair_iff i j).mpr hset)),
      (attrsMatch_eq_some_true a b).mpr hfields]
    rfl
  · intro r
    cases h1 : pyIntAttr a.pair_id with
    | error e =>
      cases h2 : pyIntAttr b.pair_id with
      | error e2 =>
        rw [is_pair_of_err_left h1, is_pair_of_err_left h2]
        simp
      | ok j =>
        rw [is_pair_of_err_left h1, is_pair_of_err_right h2 h1]
    | ok i =>
      cases h2 : pyIntAttr b.pair_id with
      | error e2 =>
        rw [is_pair_of_err_right h1 h2, is_pair_of_err_left h2]
      | ok j =>
        rw [is_pair_of_ok_both h1 h2, is_pair_of_ok_both h2 h1,
          min_comm j i, max_comm j i, attrsMatch_symm b a]
  · intro i j h1 h2 hset hfields
    rw [is_pair_of_ok_both h1 h2,
      if_neg (not_not_intro ((minmax_pair_iff i j).mpr hset))]
    have hne : SequenceIdentifier.attrsMatch a b ≠ some true :=
      fun hm => hfields ((attrsMatch_eq_some_true a b).mp hm)
    cases hm : SequenceIdentifier.attrsMatch a b with
    | none => rfl
    | some v =>
      cases v with
      | false => rfl
      | true => exact absurd hm hne

/-- Witness for claim C3 at the canonical mate pair. -/
theorem claim_C3_witness :
    SequenceIdentifier.is_pair_of
      (SequenceIdentifier.parse "@EAS139:136:FC706VJ:2:2104:15343:197393 1:Y:18:ATCACG")
      (SequenceIdentifier.parse "@EAS139:136:FC706VJ:2:2104:15343:197393 2:Y:18:ATCACG")
      = Except.ok true :=
  (claim_C3 _ _).1.mpr ⟨1, 2, by rfl, by rfl, Or.inl ⟨rfl, rfl⟩,
    ⟨PyVal.str "EAS139", rfl, rfl⟩, ⟨PyVal.str "136", rfl, rfl⟩,
    ⟨PyVal.str "FC706VJ", rfl, rfl⟩, ⟨PyVal.str "2", rfl, rfl⟩,
    ⟨PyVal.str "2104", rfl, rfl⟩, ⟨PyVal.str "15343", rfl, rfl⟩,
    ⟨PyVal.str "197393", rfl, rfl⟩, ⟨PyVal.pynone, rfl, rfl⟩,
    ⟨PyVal.str "Y", rfl, rfl⟩, ⟨PyVal.str "18", rfl, rfl⟩,
    ⟨PyVal.str "ATCACG", rfl, rfl⟩⟩


/-- Claim C4 as stated is false: the constructor stores the stripped
identifier line, so rendering an Unrecognized identifier returns the
stripped text; an identifier line carrying its terminator (the normal case,
readline keeps it) does not round-trip byte for byte. -/
theorem claim_C4_counterexample :
    (SequenceIdentifier.parse "plain header\n").format = none ∧
    SequenceIdentifier.repr (SequenceIdentifier.parse "plain header\n")
        = some "plain header" ∧
    "plain header" ≠ "plain header\n" := by
  refine ⟨rfl, rfl, ?_⟩
  decide

/-- Claim C4 amended: for every identifier line whose parse result is
Unrecognized, rendering returns the whitespace-stripped original text, and
the round trip is byte-identical exactly on inputs already free of
surrounding whitespace. -/
theorem claim_C4_amended (s : String)
    (h : (SequenceIdentifier.parse s).format = none) :
    SequenceIdentifier.repr (SequenceIdentifier.parse s) = some (pyStrip s) ∧
    (pyStrip s = s →
      SequenceIdentifier.repr (SequenceIdentifier.parse s) = some s) := by
  have hr : SequenceIdentifier.repr (SequenceIdentifier.parse s) = some (pyStrip s) := by
    unfold SequenceIdentifier.repr
    rw [h, parse_seqid]
    simp
  exact ⟨hr, fun he => by rw [hr, he]⟩

/-- Witness for the amended claim C4 at a concrete stripped input. -/
theorem claim_C4_witness :
    SequenceIdentifier.repr (SequenceIdentifier.parse "plain header")
      = some "plain header" :=
  (claim_C4_amended "plain header" (by rfl)).2 (by rfl)

/-- Claim C2 as stated is false: the source has no truncation error class; a
line source exhausted mid-record (three leftover lines here) gives the same
clean StopIteration as an already-empty source, and the partial record is
silently discarded. -/
theorem claim_C2_counterexample :
    (FastqIterator.next
        { fastq_file := some "f", lines := ["@r1\n", "ACGT\n", "+\n"], closed := false }).1
      = NextResult.stopIteration ∧
    (FastqIterator.next
        { fastq_file := some "f", lines := [], closed := false }).1
      = NextResult.stopIteration :=
  ⟨rfl, rfl⟩

/-- Claim C2 amended: a pull reads four lines; with fewer than four lines
remaining (zero complete records and a 1-3 line truncated tail alike) it
ends in StopIteration with no error, and with four or more lines remaining
it returns a record. -/
theorem claim_C2_amended (it : FastqIterator)
    (hv : ∀ l ∈ it.lines, l ≠ "") :
    (it.lines.length < 4 → (FastqIterator.next it).1 = NextResult.stopIteration) ∧
    (4 ≤ it.lines.length → ∃ r, (FastqIterator.next it).1 = NextResult.read r) := by
  obtain ⟨ff, lines, cl⟩ := it
  rcases lines with _ | ⟨l1, _ | ⟨l2, _ | ⟨l3, _ | ⟨l4, rest⟩⟩⟩⟩
  · exact ⟨fun _ => rfl, fun h => by simp at h⟩
  · exact ⟨fun _ => rfl, fun h => by simp at h⟩
  · exact ⟨fun _ => rfl, fun h => by simp at h⟩
  · exact ⟨fun _ => rfl, fun h => by simp at h⟩
  · refine ⟨fun hlt => ?_, fun _ => ?_⟩
    · simp at hlt
      omega
    · have h4 : l4 ≠ "" := hv l4 (by simp)
      refine ⟨FastqRead.make l1 l2 l3 l4, ?_⟩
      simp [FastqIterator.next, readline, h4]

/-- Witness for the amended claim C2: a three-line source stops cleanly and
a four-line source yields a record. -/
theorem claim_C2_witness :
    (FastqIterator.next
        { fastq_file := some "g", lines := ["@r2\n", "ACGT\n", "+\n"], closed := false }).1
      = NextResult.stopIteration ∧
    ∃ r, (FastqIterator.next
        { fastq_file := some "g", lines := ["@r2\n", "ACGT\n", "+\n", "IIII\n"], closed := false }).1
      = NextResult.read r :=
  ⟨(claim_C2_amended _ (by decide)).1 (by decide),
   (claim_C2_amended _ (by decide)).2 (by decide)⟩

/-- Claim C5 evidence: at EOF the stream closes the handle exactly when the
stored file name is None, that is when the handle came from the caller, and
leaves a handle it opened itself from a path open.  This is the reverse of
the claimed ownership rule, and it contradicts the class docstring, whose
usage example has the caller close the supplied handle afterwards. -/
theorem claim_C5_evidence :
    (FastqIterator.next
        { fastq_file := none, lines := [], closed := false }).2.closed = true ∧
    (FastqIterator.next
        { fastq_file := some "reads.fastq", lines := [], closed := false }).2.closed = false :=
  ⟨rfl, rfl⟩

/-- Claim C7: nreads raises exactly when the number of newline characters
(the count of newline-delimited lines) is not a multiple of four, otherwise
it returns that count divided by four; an empty input yields zero without
error and a three-line input raises. -/
theorem claim_C7 (content : String) :
    ((∃ msg, nreads content = Except.error msg) ↔ countNewlines content % 4 ≠ 0) ∧
    (countNewlines content % 4 = 0 →
      nreads content = Except.ok (countNewlines content / 4)) ∧
    nreads "" = Except.ok 0 ∧
    (∃ msg, nreads "line1\nline2\nline3\n" = Except.error msg) := by
  refine ⟨⟨?_, ?_⟩, ?_, ?_, ?_⟩
  · rintro ⟨msg, hm⟩ hc
    unfold nreads at hm
    rw [if_neg (not_not_intro hc)] at hm
    cases hm
  · intro hc
    exact ⟨_, by unfold nreads; rw [if_pos hc]⟩
  · intro hc
    unfold nreads
    rw [if_neg (not_not_intro hc)]
  · rfl
  · exact ⟨_, rfl⟩

/-- Witness for claim C7 at a concrete four-line input. -/
theorem claim_C7_witness : nreads "a\nb\nc\nd\n" = Except.ok 1 :=
  (claim_C7 "a\nb\nc\nd\n").2.1 (by decide)

/-- Claim C8 as stated is false: the constructor checks nothing, so a record
with unequal sequence and quality lengths is constructed without complaint,
and stripping removes only leading and trailing whitespace, so a terminator
in the middle of a supplied line survives. -/
theorem claim_C8_counterexample :
    (FastqRead.make "@r1\n" "ABC\n" "+\n" "DE\n").sequence.length = 3 ∧
    (FastqRead.make "@r1\n" "ABC\n" "+\n" "DE\n").quality.length = 2 ∧
    (FastqRead.make "@r1\n" "AB\nC" "+\n" "II\nI").sequence.data.contains '\n' = true :=
  ⟨rfl, rfl, rfl⟩

/-- Claim C8 amended: construction strips leading and trailing whitespace
from the sequence and quality lines; for lines made of whitespace-free
content followed by trailing whitespace, as line reading produces, the
stored strings equal the content exactly and contain no line terminators.
Equal lengths of sequence and quality are not enforced and hold only when
the stripped inputs happen to agree. -/
theorem claim_C8_amended (seqid_line optid_line : String) (s1 t1 s4 t4 : List Char)
    (hs1 : ∀ c ∈ s1, pyIsSpace c = false) (ht1 : ∀ c ∈ t1, pyIsSpace c = true)
    (hs4 : ∀ c ∈ s4, pyIsSpace c = false) (ht4 : ∀ c ∈ t4, pyIsSpace c = true) :
    (FastqRead.make seqid_line ⟨s1 ++ t1⟩ optid_line ⟨s4 ++ t4⟩).sequence = ⟨s1⟩ ∧
    (FastqRead.make seqid_line ⟨s1 ++ t1⟩ optid_line ⟨s4 ++ t4⟩).quality = ⟨s4⟩ ∧
    (∀ c ∈ (FastqRead.make seqid_line ⟨s1 ++ t1⟩ optid_line ⟨s4 ++ t4⟩).sequence.data,
      c ≠ '\n' ∧ c ≠ '\r') ∧
    (∀ c ∈ (FastqRead.make seqid_line ⟨s1 ++ t1⟩ optid_line ⟨s4 ++ t4⟩).quality.data,
      c ≠ '\n' ∧ c ≠ '\r') := by
  have hterm : ∀ c : Char, pyIsSpace c = false → c ≠ '\n' ∧ c ≠ '\r' := by
    intro c hc
    constructor <;> rintro rfl <;> exact absurd hc (by decide)
  have h1 : (FastqRead.make seqid_line ⟨s1 ++ t1⟩ optid_line ⟨s4 ++ t4⟩).sequence
      = (⟨s1⟩ : String) :=
    congrArg String.mk (pyStripList_concat hs1 ht1)
  have h4 : (FastqRead.make seqid_line ⟨s1 ++ t1⟩ optid_line ⟨s4 ++ t4⟩).quality
      = (⟨s4⟩ : String) :=
    congrArg String.mk (pyStripList_concat hs4 ht4)
  refine ⟨h1, h4, ?_, ?_⟩
  · intro c hc
    rw [h1] at hc
    exact hterm c (hs1 c hc)
  · intro c hc
    rw [h4] at hc
    exact hterm c (hs4 c hc)

/-- Witness for the amended claim C8 at a concrete well-formed record. -/
theorem claim_C8_witness :
    (FastqRead.make "@r1\n" ⟨"ACGT".data ++ "\n".data⟩ "+\n"
        ⟨"IIII".data ++ "\n".data⟩).sequence = ⟨"ACGT".data⟩ ∧
    (FastqRead.make "@r1\n" ⟨"ACGT".data ++ "\n".data⟩ "+\n"
        ⟨"IIII".data ++ "\n".data⟩).quality = ⟨"IIII".data⟩ :=
  ⟨(claim_C8_amended "@r1\n" "+\n" "ACGT".data "\n".data "IIII".data "\n".data
      (by decide) (by decide) (by decide) (by decide)).1,
   (claim_C8_amended "@r1\n" "+\n" "ACGT".data "\n".data "IIII".data "\n".data
      (by decide) (by decide) (by decide) (by decide)).2.1⟩

/-- Claim C9: the effective sequence length is the stored sequence length
less one when the read is detected as colorspace, and the full stored
length otherwise. -/
theorem claim_C9 (r : FastqRead) :
    (FastqRead.is_colorspace r = true →
      FastqRead.seqlen r = r.sequence.length - 1) ∧
    (FastqRead.is_colorspace r = false →
      FastqRead.seqlen r = r.sequence.length) := by
  constructor <;> intro h <;> unfold FastqRead.seqlen <;> rw [h] <;> simp

/-- Witness for claim C9 on a colorspace read and a basespace read. -/
theorem claim_C9_witness :
    FastqRead.seqlen (FastqRead.make "xyz\n" "T010.\n" "+\n" "!!!!!\n")
        = (FastqRead.make "xyz\n" "T010.\n" "+\n" "!!!!!\n").sequence.length - 1 ∧
    FastqRead.seqlen (FastqRead.make "@x\n" "ACGT\n" "+\n" "IIII\n")
        = (FastqRead.make "@x\n" "ACGT\n" "+\n" "IIII\n").sequence.length :=
  ⟨(claim_C9 _).1 (by rfl), (claim_C9 _).2 (by rfl)⟩

/-- Claim C10: a read is colorspace exactly when its identifier line parses
to the Unrecognized outcome (format None), its sequence starts with T, and
every later sequence character is one of . 0 1 2 3; in particular a read
whose header parses to a recognized dialect is never colorspace. -/
theorem claim_C10 (r : FastqRead) :
    (FastqRead.is_colorspace r = true ↔
      ((SequenceIdentifier.parse r.raw_seqid).format = none ∧
       strStartsWithChar r.sequence 'T' = true ∧
       ∀ c ∈ r.sequence.data.tail, c ∈ ".0123".data)) ∧
    ((SequenceIdentifier.parse r.raw_seqid).format ≠ none →
      FastqRead.is_colorspace r = false) := by
  unfold FastqRead.is_colorspace FastqRead.seqid
  cases hf : (SequenceIdentifier.parse r.raw_seqid).format with
  | none =>
    refine ⟨?_, fun hne => absurd rfl hne⟩
    by_cases hT : strStartsWithChar r.sequence 'T' = true
    · simp only [hT, if_true]
      constructor
      · intro h
        exact ⟨trivial, trivial, fun c hc => List.elem_iff.mp (List.all_eq_true.mp h c hc)⟩
      · rintro ⟨-, -, h⟩
        exact List.all_eq_true.mpr (fun c hc => List.elem_iff.mpr (h c hc))
    · simp only [Bool.not_eq_true] at hT
      simp [hT]
  | some fmt =>
    refine ⟨?_, fun _ => rfl⟩
    simp

/-- Witness for claim C10 at a concrete colorspace read. -/
theorem claim_C10_witness :
    FastqRead.is_colorspace (FastqRead.make "xyz2\n" "T123.0\n" "+\n" "!!!!!!\n") = true :=
  (claim_C10 _).1.mpr ⟨rfl, rfl, by decide⟩
